import Mathlib

/-!
Verification development for the `hu_explore_demo` repository.

The repository's executable code lives in a scratch notebook
(`hu_explore_demo/temp.ipynb`): an S3-backed CSV loader
(`s3_load_trials_csv`), an OpenAI chat-completion wrapper (`query_gpt`),
a row-wise prompt generator (`generate_data_viewer_gpt_apply_func`) and
module-level initialization (API key check, client construction).

The design document additionally specifies an idempotent ingestion
pipeline (fingerprinting, dedup, atomic artifact commit, cumulative
dataset append) for which no code exists in the repository; those parts
are modelled from the spec and marked as such in their doc comments.
-/

namespace HuExplore

/-! ## Module initialization (notebook cell 1)

Python source:
```text
api_key = os.environ.get("API_KEY")
if not api_key:
    raise ValueError("API_KEY environment variable not set")
client = OpenAI(api_key=api_key)
```
-/

/-- The OpenAI client object; records the key it was constructed with. -/
structure OpenAIClient where
  api_key : String
deriving Repr, DecidableEq

inductive InitError where
  | valueError (msg : String)
deriving Repr, DecidableEq

/-- Python truthiness of an optional string: `not api_key` is true when
`os.environ.get` returned `None` (variable unset) or the empty string. -/
def pyFalsyStr : Option String → Bool
  | none => true
  | some s => s = ""

/-- Module-level initialization: read `API_KEY` from the environment
(`none` models an unset variable), raise `ValueError` when it is falsy,
otherwise construct the client with that key. -/
def moduleInit (env_api_key : Option String) : Except InitError OpenAIClient :=
  if pyFalsyStr env_api_key then
    Except.error (InitError.valueError "API_KEY environment variable not set")
  else
    Except.ok (OpenAIClient.mk (env_api_key.getD ""))

/-! ## Chat-completion wrapper `query_gpt` (notebook cell 2)

Python source:
```text
def query_gpt(prompt, system_prompt, model="gpt-4o", temperature=0.0) -> str:
    try:
        response = client.chat.completions.create(model=model,
            messages=[{"role": "system", "content": system_prompt},
                      {"role": "user", "content": prompt}],
            max_tokens=4096, temperature=temperature)
        msg = response.choices[0].message
        return msg  # .content.strip() is commented out in the source
    except Exception as e:
        return "Error in GPT query"
```
The completion client is modelled as a function from the request to
either a response or a raised exception (`Except`). The temperature is a
constant passed through unchanged, modelled as a rational number.
-/

structure ChatMessage where
  role : String
  content : String
deriving Repr, DecidableEq

structure ChatChoice where
  message : ChatMessage
deriving Repr, DecidableEq

structure ChatResponse where
  choices : List ChatChoice
deriving Repr, DecidableEq

structure ChatRequest where
  model : String
  messages : List ChatMessage
  max_tokens : Nat
  temperature : Rat
deriving Repr, DecidableEq

/-- Failures raised by the underlying chat-completion call. -/
inductive ApiError where
  | quota
  | network
  | other (msg : String)
deriving Repr, DecidableEq

/-- A chat-completion client: may return a response or raise. -/
def ChatClient : Type := ChatRequest → Except ApiError ChatResponse

/-- The result of `query_gpt` as the code actually returns it: the
successful path returns the message OBJECT (the `.content.strip()` call
is commented out in the source), the exception path returns the fixed
error string. -/
inductive QueryResult where
  | message (m : ChatMessage)
  | errorText (s : String)
deriving Repr, DecidableEq

/-- The single request `query_gpt` sends to the completion client. -/
def sentRequest (model : String) (system_prompt prompt : String) (temperature : Rat) :
    ChatRequest :=
  ChatRequest.mk model
    [ChatMessage.mk "system" system_prompt, ChatMessage.mk "user" prompt]
    4096 temperature

def DEFAULT_MODEL : String := "gpt-4o"

def DEFAULT_TEMPERATURE : Rat := 0

/-- `query_gpt`: send the request; on any raised exception (including the
`IndexError` from `response.choices[0]` on an empty choice list) return
the string "Error in GPT query"; otherwise return the first choice's
message object. -/
def query_gpt (client : ChatClient) (prompt system_prompt : String)
    (model : String) (temperature : Rat) : QueryResult :=
  match client (sentRequest model system_prompt prompt temperature) with
  | Except.error _ => QueryResult.errorText "Error in GPT query"
  | Except.ok response =>
    match response.choices with
    | [] => QueryResult.errorText "Error in GPT query"
    | c :: _ => QueryResult.message c.message

/-- `query_gpt` called with its default arguments. -/
def query_gpt_defaults (client : ChatClient) (prompt system_prompt : String) : QueryResult :=
  query_gpt client prompt system_prompt DEFAULT_MODEL DEFAULT_TEMPERATURE

/-! ## Prompt templates and the row-wise apply function (notebook cells 1-2)

The two prompt constants are transcribed verbatim from the notebook
(braces of the template written with hex escapes). Python's
`str.format` with auto-numbered empty replacement fields is embedded as
`pyFormat`.
-/

def DATA_VIEWER_SYSTEM_PROMPT : String :=
  "You a data analyizer/synthesizer. The user will\nprovide a prompt they wish to be applied to each row in a table of clinical\ntrial data, creating a new column of responses across that table. You will be\ngiven a single row of data from that table and you will provide an appropriate\nresponse that will be used as content in this new column. Provide only this\ncontent with no additional explanation or apology."

def DATA_VIEWER_ROWWISE_PROMPT : String :=
  "\n# User Prompt\n\n\x7b\x7d\n\n---  \n\n# Row Data\n\n```\n\x7b\x7d\n```\n"

/-- Auto-numbered `str.format`: each empty brace pair (`U+007B U+007D`)
consumes the next positional argument in order; other characters are
copied through. -/
def formatAux : List Char → List String → List Char
  | [], _ => []
  | [c], _ => [c]
  | c1 :: c2 :: rest, args =>
    if c1.toNat == 123 && c2.toNat == 125 then
      match args with
      | [] => c1 :: c2 :: formatAux rest []
      | a :: as => a.data ++ formatAux rest as
    else
      c1 :: formatAux (c2 :: rest) args

def pyFormat (template : String) (args : List String) : String :=
  String.mk (formatAux template.data args)

/-- `generate_data_viewer_gpt_apply_func`: returns the closure that
formats the row-wise prompt with the user prompt and the row data and
queries GPT with the data-viewer system prompt (default model and
temperature). -/
def generate_data_viewer_gpt_apply_func (client : ChatClient) (user_prompt : String) :
    String → QueryResult :=
  fun row_data =>
    query_gpt_defaults client
      (pyFormat DATA_VIEWER_ROWWISE_PROMPT [user_prompt, row_data])
      DATA_VIEWER_SYSTEM_PROMPT

/-! ## S3-backed CSV loader (notebook cell 2)

Python source:
```text
def s3_load_trials_csv(_client, _bucket, _key='table/clinical_trials.csv'):
    response = _client.get_object(Bucket=_bucket, Key=_key)
    csv_data = response['Body'].read().decode('utf-8')
    return pd.read_csv(StringIO(csv_data))
```
The object store is a finite map from (bucket, key) to a UTF-8 decoded
body; a missing key raises, modelled by `Option`. `pd.read_csv` is
modelled as splitting the body into non-empty lines and each line into
comma-separated fields.
-/

structure S3State where
  objects : List ((String × String) × String)
deriving Repr, DecidableEq

def get_object (s : S3State) (bucket key : String) : Option String :=
  (s.objects.find? (fun p => p.1 == (bucket, key))).map (fun p => p.2)

def parse_csv (body : String) : List (List String) :=
  ((body.splitOn "\n").filter (fun l => l ≠ "")).map (fun l => l.splitOn ",")

/-- The default value of the `_key` parameter in the source. -/
def DEFAULT_TRIALS_KEY : String := "table/clinical_trials.csv"

def s3_load_trials_csv (s : S3State) (bucket key : String) :
    Option (List (List String)) :=
  (get_object s bucket key).map parse_csv

/-- `s3_load_trials_csv` invoked with its default key. -/
def s3_load_trials_csv_default (s : S3State) (bucket : String) :
    Option (List (List String)) :=
  s3_load_trials_csv s bucket DEFAULT_TRIALS_KEY

/-- A `get_object` call in the state-passing semantics of the object
store: it returns the body and leaves the store unchanged (the store's
`get` operation is a pure read). -/
def get_object_run (s : S3State) (bucket key : String) : Option String × S3State :=
  (get_object s bucket key, s)

/-- A `put_object` call in the state-passing semantics: it prepends the
new object, mutating the store. -/
def put_object_run (s : S3State) (bucket key body : String) : S3State :=
  S3State.mk (((bucket, key), body) :: s.objects)

/-- `s3_load_trials_csv` in the state-passing semantics: the body of the
function performs exactly one store operation, the `get_object` call. -/
def s3_load_trials_csv_run (s : S3State) (bucket key : String) :
    Option (List (List String)) × S3State :=
  let r := get_object_run s bucket key
  (r.1.map parse_csv, r.2)

/-! ## Ingestion pipeline (modelled from the spec)

No ingestion code exists in the repository; the pipeline below is
modelled from spec sections 3 and 4.1 (UploadRecord / ProcessedArtifact /
DatasetRow, fingerprint dedup, check-then-act commit). Per spec section
5, the check-then-act for one record is protected by the retry-on-
conflict mechanism, so concurrent ingestion serializes at the
granularity of one record's commit: an arbitrary interleaving of
concurrent `ingest` invocations is some flat sequence of atomic
`processRecord` steps.
-/

/-- Raw document bytes. -/
abbrev Bytes := List Nat

/-- Modelled from the spec: one per submitted file; `displayName` is the
user-supplied filename, not an identity key. -/
structure UploadRecord where
  content : Bytes
  displayName : String
deriving Repr, DecidableEq

/-- Modelled from the spec: `fingerprint` is a content-derived
identifier (a deterministic, collision-resistant hash of the content
bytes), independent of filename. Embedded as a 64-bit polynomial hash of
the bytes. -/
def fingerprint (content : Bytes) : Nat :=
  content.foldl (fun h b => (h * 131 + b) % 2 ^ 64) 5381

/-- Modelled from the spec: output of extraction, persisted
content-addressed by `sourceFingerprint`. -/
structure ProcessedArtifact where
  summary : String
  formData : List (String × String)
  sourceFingerprint : Nat
deriving Repr, DecidableEq

/-- Modelled from the spec: one row of the cumulative dataset. -/
structure DatasetRow where
  formData : List (String × String)
  filename : String
  fingerprint : Nat
deriving Repr, DecidableEq

/-- Modelled from the spec: the persisted shared state — raw content and
artifacts addressed by fingerprint, and the append-only cumulative
dataset. -/
structure PipelineState where
  rawStore : List (Nat × Bytes)
  artifacts : List (Nat × ProcessedArtifact)
  dataset : List DatasetRow
deriving Repr, DecidableEq

def initState : PipelineState := PipelineState.mk [] [] []

/-- The external extractor: `extract(pdfBytes) -> Result<(summary,
formData), Error>` (spec section 6). -/
abbrev Extractor := Bytes → Except String (String × List (String × String))

def findArtifact (arts : List (Nat × ProcessedArtifact)) (fp : Nat) :
    Option (Nat × ProcessedArtifact) :=
  arts.find? (fun p => p.1 == fp)

/-- The authoritative existence check against persisted state (spec
section 4.1 step 2). -/
def artifactExists (s : PipelineState) (fp : Nat) : Bool :=
  (findArtifact s.artifacts fp).isSome

/-- Modelled from the spec: per-file ingestion outcome. -/
inductive Outcome where
  | NewlyProcessed (fp : Nat)
  | AlreadyProcessed (fp : Nat)
  | ExtractionFailed (fp : Nat) (reason : String)
deriving Repr, DecidableEq

/-- Modelled from the spec: process one UploadRecord as one atomic
commit (spec section 4.1 steps 1-3, check-then-act protected per spec
section 5). Duplicate: skip. Extraction failure: no write at all. On
success: persist raw content and the artifact under the fingerprint and
append exactly one DatasetRow. -/
def processRecord (extract : Extractor) (s : PipelineState) (r : UploadRecord) :
    Outcome × PipelineState :=
  let fp := fingerprint r.content
  if artifactExists s fp then
    (Outcome.AlreadyProcessed fp, s)
  else
    match extract r.content with
    | Except.error reason => (Outcome.ExtractionFailed fp reason, s)
    | Except.ok sf =>
      (Outcome.NewlyProcessed fp,
       PipelineState.mk
         ((fp, r.content) :: s.rawStore)
         ((fp, ProcessedArtifact.mk sf.1 sf.2 fp) :: s.artifacts)
         (s.dataset ++ [DatasetRow.mk sf.2 r.displayName fp]))

/-- Modelled from the spec: `ingest(batch) -> sequence of Outcome`,
processing the batch sequentially (spec section 5). -/
def ingest (extract : Extractor) : PipelineState → List UploadRecord →
    List Outcome × PipelineState
  | s, [] => ([], s)
  | s, r :: rs =>
    let p := processRecord extract s r
    let q := ingest extract p.2 rs
    (p.1 :: q.1, q.2)

/-- The state after an arbitrary sequence of atomic record commits: any
interleaving of sequential or concurrent `ingest` invocations reaches
exactly the states of this form. -/
def runSteps (extract : Extractor) : PipelineState → List UploadRecord → PipelineState
  | s, [] => s
  | s, r :: rs => runSteps extract (processRecord extract s r).2 rs

/-- The dataset invariant: fingerprints are pairwise distinct across
rows, and every row's fingerprint has a persisted artifact. -/
def Inv (s : PipelineState) : Prop :=
  (s.dataset.map DatasetRow.fingerprint).Nodup ∧
  ∀ row ∈ s.dataset, artifactExists s row.fingerprint = true

/-! ## Atomic artifact visibility (modelled from the spec)

Modelled from the spec: no artifact-write code exists in the repository.
Spec section 4.1 step 3c mandates that the (summary, formData) artifact
write be atomic to readers, e.g. "write to a temporary location and
commit via a single rename/move". The model below takes that strategy
literally: a writer may write `summary.txt` and `form_data.json` for a
fingerprint to a temporary area in any order and any number of times,
and a single `commitMove` step atomically publishes both under the final
fingerprint-addressed keys. Readers observe only the final keys.
-/

/-- Keys of the artifact object store: the temporary staging area and
the final `processed/<fingerprint>/{summary.txt, form_data.json}`
locations. -/
inductive AKey where
  | tmpSummary (fp : Nat)
  | tmpForm (fp : Nat)
  | summary (fp : Nat)
  | formData (fp : Nat)
deriving Repr, DecidableEq

abbrev ArtStore := List (AKey × String)

def aget (σ : ArtStore) (k : AKey) : Option String :=
  (σ.find? (fun p => p.1 == k)).map (fun p => p.2)

def aput (σ : ArtStore) (k : AKey) (v : String) : ArtStore :=
  (k, v) :: σ

/-- One writer step against the artifact store: stage a summary, stage a
formData, or atomically commit both staged pieces for a fingerprint to
their final keys (the single rename/move of spec section 4.1 step 3c). -/
inductive ArtifactStep : ArtStore → ArtStore → Prop where
  | writeTmpSummary (σ : ArtStore) (fp : Nat) (txt : String) :
      ArtifactStep σ (aput σ (AKey.tmpSummary fp) txt)
  | writeTmpForm (σ : ArtStore) (fp : Nat) (txt : String) :
      ArtifactStep σ (aput σ (AKey.tmpForm fp) txt)
  | commitMove (σ : ArtStore) (fp : Nat) (su fo : String)
      (hs : aget σ (AKey.tmpSummary fp) = some su)
      (hf : aget σ (AKey.tmpForm fp) = some fo) :
      ArtifactStep σ (aput (aput σ (AKey.summary fp) su) (AKey.formData fp) fo)

/-- States of the artifact store reachable from the empty store by
writer steps. -/
inductive ArtReachable : ArtStore → Prop where
  | init : ArtReachable []
  | step (σ σ' : ArtStore) : ArtReachable σ → ArtifactStep σ σ' → ArtReachable σ'

/-- What a reader observes: for every fingerprint, the final summary key
is populated exactly when the final formData key is. -/
def AtomicVisible (σ : ArtStore) : Prop :=
  ∀ fp : Nat, (aget σ (AKey.summary fp)).isSome = (aget σ (AKey.formData fp)).isSome

/-! ## Helper lemmas -/

theorem aget_aput_self (σ : ArtStore) (k : AKey) (v : String) :
    aget (aput σ k v) k = some v := by
  unfold aget aput
  rw [List.find?_cons_of_pos]
  · rfl
  · simp

theorem aget_aput_ne (σ : ArtStore) (k k' : AKey) (v : String) (h : k ≠ k') :
    aget (aput σ k v) k' = aget σ k' := by
  unfold aget aput
  rw [List.find?_cons_of_neg]
  simp [h]

/-- One writer step preserves atomic visibility: staging writes do not
touch final keys, and the commit publishes both final keys at once. -/
theorem artifactStep_preserves_atomicVisible {σ σ' : ArtStore}
    (h : AtomicVisible σ) (hstep : ArtifactStep σ σ') : AtomicVisible σ' := by
  cases hstep with
  | writeTmpSummary fp txt =>
    intro fp'
    rw [aget_aput_ne _ _ _ _ (by simp), aget_aput_ne _ _ _ _ (by simp)]
    exact h fp'
  | writeTmpForm fp txt =>
    intro fp'
    rw [aget_aput_ne _ _ _ _ (by simp), aget_aput_ne _ _ _ _ (by simp)]
    exact h fp'
  | commitMove fp su fo hs hf =>
    intro fp'
    by_cases hfp : fp = fp'
    · subst hfp
      rw [aget_aput_self, aget_aput_ne _ _ _ _ (by simp), aget_aput_self]
      rfl
    · rw [aget_aput_ne _ _ _ _ (by simp [hfp]),
          aget_aput_ne _ _ _ _ (by simp [hfp]),
          aget_aput_ne _ _ _ _ (by simp [hfp])]
      exact h fp'

theorem findArtifact_cons_isSome (arts : List (Nat × ProcessedArtifact))
    (x : Nat × ProcessedArtifact) (fp : Nat)
    (h : (findArtifact arts fp).isSome = true) :
    (findArtifact (x :: arts) fp).isSome = true := by
  unfold findArtifact at *
  cases hx : (x.1 == fp) <;> simp [List.find?_cons, hx, h]

/-- A single atomic record commit preserves the dataset invariant. -/
theorem processRecord_preserves_Inv (extract : Extractor) (s : PipelineState)
    (r : UploadRecord) (h : Inv s) : Inv (processRecord extract s r).2 := by
  unfold processRecord
  by_cases hex : artifactExists s (fingerprint r.content) = true
  · simpa [hex] using h
  · rw [Bool.not_eq_true] at hex
    cases hx : extract r.content with
    | error reason => simpa [hex, hx] using h
    | ok sf =>
      simp [hex, hx]
      constructor
      · rw [List.map_append]
        simp [List.nodup_append, h.1]
        intro row hrow hfpeq
        have hart := h.2 row hrow
        rw [hfpeq] at hart
        rw [artifactExists] at hart hex
        exact absurd hart (by simp [hex])
      · intro row hrow
        rcases List.mem_append.mp hrow with hold | hnewr
        · exact findArtifact_cons_isSome _ _ _ (h.2 row hold)
        · simp at hnewr
          subst hnewr
          simp [artifactExists, findArtifact, List.find?_cons]

/-- The dataset invariant holds after any sequence of atomic record
commits. -/
theorem runSteps_preserves_Inv (extract : Extractor) (rs : List UploadRecord) :
    ∀ s : PipelineState, Inv s → Inv (runSteps extract s rs) := by
  induction rs with
  | nil => intro s h; exact h
  | cons r rs ih =>
    intro s h
    exact ih _ (processRecord_preserves_Inv extract s r h)

/-- The state `ingest` reaches on a batch is the state of the
corresponding sequence of atomic record commits. -/
theorem ingest_state_eq_runSteps (extract : Extractor) (rs : List UploadRecord) :
    ∀ s : PipelineState, (ingest extract s rs).2 = runSteps extract s rs := by
  induction rs with
  | nil => intro s; rfl
  | cons r rs ih => intro s; exact ih _

/-! ## Claims -/

/-- C10: whenever the `API_KEY` environment variable is unset or empty,
module initialization raises `ValueError` and no client is constructed;
every client that is constructed carries a non-empty API key. -/
theorem moduleInit_requires_api_key (env : Option String) :
    (pyFalsyStr env = true →
      moduleInit env
        = Except.error (InitError.valueError "API_KEY environment variable not set")) ∧
    (∀ c : OpenAIClient, moduleInit env = Except.ok c → c.api_key ≠ "") := by
  constructor
  · intro h
    simp [moduleInit, h]
  · intro c hc
    by_cases h : pyFalsyStr env = true
    · simp [moduleInit, h] at hc
    · simp [moduleInit, h] at hc
      cases env with
      | none => simp [pyFalsyStr] at h
      | some s =>
        simp [pyFalsyStr] at h
        rw [← hc]
        simpa using h

theorem moduleInit_requires_api_key_witness :
    moduleInit none
      = Except.error (InitError.valueError "API_KEY environment variable not set")
    ∧ (OpenAIClient.mk "secret").api_key ≠ "" :=
  ⟨(moduleInit_requires_api_key none).1 (by decide),
   (moduleInit_requires_api_key (some "secret")).2 (OpenAIClient.mk "secret") (by simp [moduleInit, pyFalsyStr])⟩

/-- C2: for every prompt, system prompt and model/temperature argument,
any failure raised by the underlying chat-completion call (quota,
network, or any other exception) is not propagated: `query_gpt` returns
the user-visible error string instead of crashing. -/
theorem query_gpt_surfaces_api_errors
    (client : ChatClient) (prompt system_prompt model : String) (temperature : Rat)
    (e : ApiError)
    (h : client (sentRequest model system_prompt prompt temperature) = Except.error e) :
    query_gpt client prompt system_prompt model temperature
      = QueryResult.errorText "Error in GPT query" := by
  simp [query_gpt, h]

theorem query_gpt_surfaces_api_errors_witness :
    query_gpt (fun _ => Except.error ApiError.quota) "p" "sys" DEFAULT_MODEL
        DEFAULT_TEMPERATURE
      = QueryResult.errorText "Error in GPT query" :=
  query_gpt_surfaces_api_errors (fun _ => Except.error ApiError.quota) "p" "sys"
    DEFAULT_MODEL DEFAULT_TEMPERATURE ApiError.quota rfl

/-- C3: contrary to the claim (and to the function's own `-> str`
annotation), a successful `query_gpt` call does NOT return the
completion's text content: the `.content.strip()` projection is
commented out in the source, so the whole message object is returned.
Evaluated here at a concrete successful call: the result is the message
object with its role and raw (unstripped) content, not the text
`"hello"`. -/
theorem query_gpt_returns_message_object_not_text :
    query_gpt
        (fun _ => Except.ok
          (ChatResponse.mk [ChatChoice.mk (ChatMessage.mk "assistant" " hello ")]))
        "test" "you are a helpful assistant" DEFAULT_MODEL DEFAULT_TEMPERATURE
      = QueryResult.message (ChatMessage.mk "assistant" " hello ") := by
  rfl

/-- C9: the row-wise function produced by
`generate_data_viewer_gpt_apply_func` queries GPT with user prompt
exactly `DATA_VIEWER_ROWWISE_PROMPT.format(user_prompt, row_data)` and
system prompt exactly `DATA_VIEWER_SYSTEM_PROMPT`, and the request it
sends uses model "gpt-4o", temperature 0 and max_tokens 4096. -/
theorem apply_func_sends_exact_request (client : ChatClient) (user_prompt row_data : String) :
    generate_data_viewer_gpt_apply_func client user_prompt row_data
      = query_gpt client (pyFormat DATA_VIEWER_ROWWISE_PROMPT [user_prompt, row_data])
          DATA_VIEWER_SYSTEM_PROMPT "gpt-4o" 0
    ∧ sentRequest DEFAULT_MODEL DATA_VIEWER_SYSTEM_PROMPT
        (pyFormat DATA_VIEWER_ROWWISE_PROMPT [user_prompt, row_data]) DEFAULT_TEMPERATURE
      = ChatRequest.mk "gpt-4o"
          [ChatMessage.mk "system" DATA_VIEWER_SYSTEM_PROMPT,
           ChatMessage.mk "user" (pyFormat DATA_VIEWER_ROWWISE_PROMPT [user_prompt, row_data])]
          4096 0 :=
  ⟨rfl, rfl⟩

/-- C4 counterexample: the claim fails as stated because the default key
in the source is `table/clinical_trials.csv`, not `table/trials.csv`.
On a store that holds the cumulative CSV at key `table/trials.csv`, the
reader invoked with its default key does not return the parsed table
(the `get_object` call raises `NoSuchKey`, modelled as `none`). -/
theorem s3_default_key_counterexample :
    s3_load_trials_csv_default
        (S3State.mk [(("hu-explorer-demo", "table/trials.csv"), "a,b\n1,2")])
        "hu-explorer-demo"
      ≠ some (parse_csv "a,b\n1,2") := by
  have h : s3_load_trials_csv_default
      (S3State.mk [(("hu-explorer-demo", "table/trials.csv"), "a,b\n1,2")])
      "hu-explorer-demo" = none := by
    simp [s3_load_trials_csv_default, s3_load_trials_csv, get_object,
      DEFAULT_TRIALS_KEY, List.find?_cons]
  rw [h]
  exact fun hcontra => Option.noConfusion hcontra

/-- C4 (amended): for every object store that holds UTF-8 CSV bytes for
the cumulative dataset at key `table/clinical_trials.csv` (the default
key in the source), the dataset reader invoked with its default key
loads that object and returns the table parsed from those bytes. -/
theorem s3_load_trials_csv_default_loads_table
    (store : S3State) (bucket body : String)
    (h : get_object store bucket DEFAULT_TRIALS_KEY = some body) :
    s3_load_trials_csv_default store bucket = some (parse_csv body) := by
  simp [s3_load_trials_csv_default, s3_load_trials_csv, h]

theorem s3_load_trials_csv_default_loads_table_witness :
    get_object
        (S3State.mk [(("hu-explorer-demo", "table/clinical_trials.csv"), "a,b\n1,2")])
        "hu-explorer-demo" DEFAULT_TRIALS_KEY
      = some "a,b\n1,2"
    ∧ s3_load_trials_csv_default
        (S3State.mk [(("hu-explorer-demo", "table/clinical_trials.csv"), "a,b\n1,2")])
        "hu-explorer-demo"
      = some (parse_csv "a,b\n1,2") := by
  have h : get_object
      (S3State.mk [(("hu-explorer-demo", "table/clinical_trials.csv"), "a,b\n1,2")])
      "hu-explorer-demo" DEFAULT_TRIALS_KEY = some "a,b\n1,2" := by
    simp [get_object, DEFAULT_TRIALS_KEY, List.find?_cons]
  exact ⟨h, s3_load_trials_csv_default_loads_table _ _ _ h⟩

/-- C5: the dataset reader performs only read operations on the object
store: in the state-passing semantics its single store operation is a
`get`, the store state after the call equals the state before it, and
the value returned is the loaded table. -/
theorem s3_load_trials_csv_reads_only (s : S3State) (bucket key : String) :
    (s3_load_trials_csv_run s bucket key).2 = s
    ∧ (s3_load_trials_csv_run s bucket key).1 = s3_load_trials_csv s bucket key :=
  ⟨rfl, rfl⟩

/-- C1: starting from any state satisfying the dataset invariant, after
any sequence of atomic record commits (any interleaving of sequential or
concurrent `ingest` invocations over any contents) no fingerprint
appears in more than one row of the cumulative dataset; and calling
`ingest([f])` twice with identical content from the initial state yields
exactly one DatasetRow, the second call's outcome being
`AlreadyProcessed`. -/
theorem ingest_at_most_once_and_idempotent
    (extract : Extractor) (s : PipelineState) (rs : List UploadRecord) (hInv : Inv s)
    (f : UploadRecord) (sum : String) (fd : List (String × String))
    (hex : extract f.content = Except.ok (sum, fd)) :
    Inv (runSteps extract s rs) ∧
    (ingest extract (ingest extract initState [f]).2 [f]).1
      = [Outcome.AlreadyProcessed (fingerprint f.content)] ∧
    (ingest extract (ingest extract initState [f]).2 [f]).2.dataset.length = 1 := by
  refine ⟨runSteps_preserves_Inv extract rs s hInv, ?_, ?_⟩ <;>
    simp [ingest, processRecord, artifactExists, findArtifact, initState, hex,
      List.find?_cons]

theorem ingest_at_most_once_and_idempotent_witness :
    Inv (runSteps (fun _ => Except.ok ("sum", [("k", "v")])) initState
          [UploadRecord.mk [1, 2] "a.pdf"]) ∧
    (ingest (fun _ => Except.ok ("sum", [("k", "v")]))
        (ingest (fun _ => Except.ok ("sum", [("k", "v")])) initState
          [UploadRecord.mk [3] "b.pdf"]).2
        [UploadRecord.mk [3] "b.pdf"]).1
      = [Outcome.AlreadyProcessed (fingerprint [3])] ∧
    (ingest (fun _ => Except.ok ("sum", [("k", "v")]))
        (ingest (fun _ => Except.ok ("sum", [("k", "v")])) initState
          [UploadRecord.mk [3] "b.pdf"]).2
        [UploadRecord.mk [3] "b.pdf"]).2.dataset.length = 1 :=
  ingest_at_most_once_and_idempotent (fun _ => Except.ok ("sum", [("k", "v")]))
    initState [UploadRecord.mk [1, 2] "a.pdf"]
    (by constructor
        · simp [initState]
        · intro row hrow
          simp [initState] at hrow)
    (UploadRecord.mk [3] "b.pdf") "sum" [("k", "v")] rfl

/-- C6: the fingerprint computed during ingestion depends only on the
content bytes, not the filename: identical content under two distinct
filenames yields the same fingerprint, and the second upload is treated
as a duplicate and skipped (outcome `AlreadyProcessed`, state
unchanged). -/
theorem fingerprint_independent_of_filename
    (extract : Extractor) (c : Bytes) (n1 n2 : String) (_hne : n1 ≠ n2)
    (sum : String) (fd : List (String × String))
    (hex : extract c = Except.ok (sum, fd)) :
    fingerprint (UploadRecord.mk c n1).content
      = fingerprint (UploadRecord.mk c n2).content ∧
    (ingest extract (ingest extract initState [UploadRecord.mk c n1]).2
        [UploadRecord.mk c n2]).1
      = [Outcome.AlreadyProcessed (fingerprint c)] ∧
    (ingest extract (ingest extract initState [UploadRecord.mk c n1]).2
        [UploadRecord.mk c n2]).2
      = (ingest extract initState [UploadRecord.mk c n1]).2 := by
  refine ⟨rfl, ?_, ?_⟩ <;>
    simp [ingest, processRecord, artifactExists, findArtifact, initState, hex,
      List.find?_cons]

theorem fingerprint_independent_of_filename_witness :
    fingerprint (UploadRecord.mk [1, 2] "first.pdf").content
      = fingerprint (UploadRecord.mk [1, 2] "second.pdf").content ∧
    (ingest (fun _ => Except.ok ("sum", [("k", "v")]))
        (ingest (fun _ => Except.ok ("sum", [("k", "v")])) initState
          [UploadRecord.mk [1, 2] "first.pdf"]).2
        [UploadRecord.mk [1, 2] "second.pdf"]).1
      = [Outcome.AlreadyProcessed (fingerprint [1, 2])] ∧
    (ingest (fun _ => Except.ok ("sum", [("k", "v")]))
        (ingest (fun _ => Except.ok ("sum", [("k", "v")])) initState
          [UploadRecord.mk [1, 2] "first.pdf"]).2
        [UploadRecord.mk [1, 2] "second.pdf"]).2
      = (ingest (fun _ => Except.ok ("sum", [("k", "v")])) initState
          [UploadRecord.mk [1, 2] "first.pdf"]).2 :=
  fingerprint_independent_of_filename (fun _ => Except.ok ("sum", [("k", "v")]))
    [1, 2] "first.pdf" "second.pdf" (by decide) "sum" [("k", "v")] rfl

/-- C7: when extraction fails for an upload whose fingerprint is not yet
processed, `ingest` returns `ExtractionFailed` for that file and writes
nothing: the persisted state is exactly the state before the call. -/
theorem extraction_failure_leaves_no_trace
    (extract : Extractor) (s : PipelineState) (r : UploadRecord) (reason : String)
    (hnew : artifactExists s (fingerprint r.content) = false)
    (hfail : extract r.content = Except.error reason) :
    (ingest extract s [r]).1
      = [Outcome.ExtractionFailed (fingerprint r.content) reason]
    ∧ (ingest extract s [r]).2 = s := by
  constructor <;> simp [ingest, processRecord, hnew, hfail]

theorem extraction_failure_leaves_no_trace_witness :
    (ingest (fun _ => Except.error "bad pdf") initState [UploadRecord.mk [9] "x.pdf"]).1
      = [Outcome.ExtractionFailed (fingerprint [9]) "bad pdf"]
    ∧ (ingest (fun _ => Except.error "bad pdf") initState
        [UploadRecord.mk [9] "x.pdf"]).2 = initState :=
  extraction_failure_leaves_no_trace (fun _ => Except.error "bad pdf") initState
    (UploadRecord.mk [9] "x.pdf") "bad pdf"
    (by simp [artifactExists, findArtifact, initState]) rfl

/-- C8: in every state of the artifact store reachable by writer steps
(staging writes plus the atomic commit of spec section 4.1 step 3c), a
reader never observes a persisted summary for a fingerprint without a
corresponding complete formData for it, and vice versa. -/
theorem artifact_visibility_atomic (σ : ArtStore) (h : ArtReachable σ) :
    AtomicVisible σ := by
  induction h with
  | init => intro fp; rfl
  | step σ σ' hr hstep ih => exact artifactStep_preserves_atomicVisible ih hstep

theorem artifact_visibility_atomic_witness :
    AtomicVisible
      [(AKey.formData 7, "f"), (AKey.summary 7, "s"),
       (AKey.tmpForm 7, "f"), (AKey.tmpSummary 7, "s")] :=
  artifact_visibility_atomic _
    (ArtReachable.step _ _
      (ArtReachable.step _ _
        (ArtReachable.step _ _ ArtReachable.init
          (ArtifactStep.writeTmpSummary [] 7 "s"))
        (ArtifactStep.writeTmpForm [(AKey.tmpSummary 7, "s")] 7 "f"))
      (ArtifactStep.commitMove [(AKey.tmpForm 7, "f"), (AKey.tmpSummary 7, "s")] 7 "s" "f"
        (by simp [aget, List.find?_cons]) (by simp [aget, List.find?_cons])))

end HuExplore
